import Mathlib

/-!
Verification development for the OAuth2 credential lifecycle core of the
mf-cloud-mcp-server repository: token persistence (`TokenStore`), the OAuth
protocol client (`OAuthClient`), the local redirect listener
(`waitForCallback`), and the credential manager (`AuthManager`).

The repository contains two divergent variants of the token store (one
validating the deserialized shape and enforcing permissions on every save,
one skipping validation and setting permissions only at creation) and two
divergent variants of the callback listener (one validating the CSRF state
with a 2-minute timeout, one checking neither).  Both variants of each are
embedded here, with names recording which is which, because the claims
distinguish them.

Machine integers of the source (epoch milliseconds) are modelled as `Int`;
JSON documents are modelled as a value tree, so `JSON.parse` / `JSON.stringify`
string syntax is abstracted to the value level.
-/

namespace MfCloud

/-- The persisted token record (`TokenData` in `token-store.ts`). -/
structure TokenData where
  access_token : String
  refresh_token : String
  expires_at : Int
  scope : String
deriving DecidableEq

/-- JSON values, as produced by `JSON.parse`. Numbers are modelled as
integers (epoch milliseconds in this program). -/
inductive Json where
  | null : Json
  | bool : Bool → Json
  | num : Int → Json
  | str : String → Json
  | arr : List Json → Json
  | obj : List (String × Json) → Json

/-- Property access `o.k` on a parsed JSON value: a lookup on object fields
(last duplicate key wins, as in `JSON.parse`); `undefined` (here `none`) on
anything that is not an object with that field. -/
def Json.getField : Json → String → Option Json
  | .obj fields, k => (fields.reverse.find? (fun p => p.1 == k)).map (·.2)
  | _, _ => none

/-- JavaScript `typeof v === "object" && v !== null` on a parsed JSON value:
true for objects and arrays, false for null and primitives. -/
def jsIsNonNullObject : Json → Bool
  | .obj _ => true
  | .arr _ => true
  | _ => false

/-- `typeof x === "string"` on an optional field value. -/
def fieldIsString : Option Json → Bool
  | some (.str _) => true
  | _ => false

/-- `typeof x === "number"` on an optional field value. -/
def fieldIsNumber : Option Json → Bool
  | some (.num _) => true
  | _ => false

/-- `isValidTokenData` from the validating token store: the value is a
non-null object whose `access_token`, `refresh_token` and `scope` fields are
strings and whose `expires_at` field is a number. -/
def isValidTokenData (v : Json) : Bool :=
  jsIsNonNullObject v &&
  fieldIsString (v.getField "access_token") &&
  fieldIsString (v.getField "refresh_token") &&
  fieldIsNumber (v.getField "expires_at") &&
  fieldIsString (v.getField "scope")

/-- Reads the `TokenData` record out of a JSON value whose shape has been
validated (the typed view the TypeScript code obtains via the
`v is TokenData` predicate). -/
def tokenDataOfJson (v : Json) : Option TokenData :=
  match v.getField "access_token", v.getField "refresh_token",
        v.getField "expires_at", v.getField "scope" with
  | some (.str a), some (.str r), some (.num e), some (.str s) =>
      some ⟨a, r, e, s⟩
  | _, _, _, _ => none

/-- `JSON.stringify` of a `TokenData` record, at the value level. -/
def tokenToJson (t : TokenData) : Json :=
  .obj [("access_token", .str t.access_token),
        ("refresh_token", .str t.refresh_token),
        ("expires_at", .num t.expires_at),
        ("scope", .str t.scope)]

/-- What `readFile` + `JSON.parse` can observe about the token file:
the file is missing, the read fails, the bytes fail `JSON.parse`, or they
parse to a JSON value. -/
inductive FileContent where
  | missing : FileContent
  | unreadable : FileContent
  | notJson : FileContent
  | json : Json → FileContent

/-- `TokenStore.load`, validating variant: any read/parse failure and any
shape-validation failure degrade to `none`; a shape-valid JSON value is
returned as the token record. -/
def TokenStore.load (file : FileContent) : Option TokenData :=
  match file with
  | .json v => if isValidTokenData v then tokenDataOfJson v else none
  | _ => none

/-- `TokenStore.load`, non-validating variant: read/parse failures degrade to
`none`, but any successfully parsed JSON value is returned as-is (the
TypeScript `as TokenData` cast performs no check), so the result is the raw
parsed value. -/
def TokenStore.loadNoValidate (file : FileContent) : Option Json :=
  match file with
  | .json v => some v
  | _ => none

/-- The filesystem state the store's `save` manipulates: the token file's
parent directory (existence and mode) and the token file itself (content and
mode). -/
structure FsState where
  dirExists : Bool
  dirMode : Option Nat
  file : FileContent
  fileMode : Option Nat

/-- `mkdir(dir, { recursive: true, mode })`: creates the directory with the
given mode when missing; an existing directory is left untouched (recursive
mkdir does not change the mode of an existing directory). -/
def mkdirRecursive (mode : Nat) (fs : FsState) : FsState :=
  if fs.dirExists then fs
  else { fs with dirExists := true, dirMode := some mode }

/-- `writeFile(path, data, { mode })`: replaces the file content; the mode
option applies only when the file is being created, an existing file keeps
its previous mode. -/
def writeFileWithMode (content : Json) (mode : Nat) (fs : FsState) : FsState :=
  { fs with
      file := .json content,
      fileMode := match fs.file with
        | .missing => some mode
        | _ => fs.fileMode }

/-- `chmod(path, mode)`. -/
def chmodFile (mode : Nat) (fs : FsState) : FsState :=
  { fs with fileMode := some mode }

/-- `TokenStore.save`, permission-enforcing variant: recursive mkdir of the
parent with mode `0o700`, write of the serialized record with mode `0o600`,
then an unconditional `chmod 0o600` so a pre-existing file also ends up
restricted. -/
def TokenStore.save (t : TokenData) (fs : FsState) : FsState :=
  chmodFile 0o600 (writeFileWithMode (tokenToJson t) 0o600 (mkdirRecursive 0o700 fs))

/-- `TokenStore.save`, creation-only variant: identical but without the final
`chmod`, so the `0o600` mode is applied only when the file is created. -/
def TokenStore.saveNoChmod (t : TokenData) (fs : FsState) : FsState :=
  writeFileWithMode (tokenToJson t) 0o600 (mkdirRecursive 0o700 fs)

/-- The 60-second expiry safety margin (`EXPIRY_BUFFER_MS`), in milliseconds. -/
def EXPIRY_BUFFER_MS : Int := 60000

/-- `TokenStore.isExpired`: `expires_at - EXPIRY_BUFFER_MS <= Date.now()`,
with the current instant passed explicitly. -/
def TokenStore.isExpired (now : Int) (t : TokenData) : Bool :=
  decide (t.expires_at - EXPIRY_BUFFER_MS ≤ now)

/-! ### Local redirect listener (`callback-server.ts`, both variants) -/

/-- An inbound HTTP request as the listener observes it: the URL path and the
`code`, `error` and `state` query parameters (`none` when the parameter is
absent; `URLSearchParams.get` returns the empty string for a present-but-empty
parameter). -/
structure CallbackRequest where
  path : String
  code : Option String
  error : Option String
  state : Option String

/-- JavaScript truthiness of a `string | null` query parameter: a string is
truthy exactly when non-empty. -/
def truthy : Option String → Bool
  | some s => !(s == "")
  | none => false

/-- How the no-state listener variant settles its promise: `rejected` carries
the rejection message (the server is left open on this path), `resolved`
carries the authorization code (the server is handed to the caller open). -/
inductive NoStateResolution where
  | rejected : String → NoStateResolution
  | resolved : String → NoStateResolution
deriving DecidableEq

/-- The request handler of the no-state `waitForCallback` variant: on the
callback path, a truthy `error` parameter rejects, else a truthy `code`
parameter resolves; anything else is answered 404 and leaves the promise
pending. The `state` parameter is never consulted. -/
def handleNoState (req : CallbackRequest) : Option NoStateResolution :=
  if req.path = "/callback" then
    if truthy req.error then
      some (.rejected ("OAuth error: " ++ req.error.getD ""))
    else if truthy req.code then
      some (.resolved (req.code.getD ""))
    else none
  else none

/-- How the state-validating listener variant settles its promise on a
request: consent denial, CSRF state mismatch, or success with a code. -/
inductive StateResolution where
  | denied : StateResolution
  | stateMismatch : StateResolution
  | resolved : String → StateResolution
deriving DecidableEq

/-- The request handler of the state-validating `waitForCallback` variant: on
the callback path, a truthy `error` parameter rejects as denied; otherwise a
`state` parameter differing from the expected one (including an absent one)
rejects as a state mismatch; otherwise a truthy `code` resolves; anything
else is answered 404 and leaves the promise pending. -/
def handleState (expected : String) (req : CallbackRequest) : Option StateResolution :=
  if req.path = "/callback" then
    if truthy req.error then some .denied
    else if req.state ≠ some expected then some .stateMismatch
    else if truthy req.code then some (.resolved (req.code.getD ""))
    else none
  else none

/-- `CALLBACK_TIMEOUT_MS` of the state-validating listener: 2 minutes. -/
def CALLBACK_TIMEOUT_MS : Nat := 120000

/-- A request together with its arrival time, in milliseconds after the
listener was started. Event lists are taken in chronological order. -/
structure TimedEvent where
  time : Nat
  req : CallbackRequest

/-- Terminal outcomes of one run of the state-validating listener. -/
inductive ListenerOutcome where
  | succeeded : String → ListenerOutcome
  | denied : ListenerOutcome
  | stateMismatch : ListenerOutcome
  | timedOut : ListenerOutcome
deriving DecidableEq

/-- One run of the state-validating listener over a chronological stream of
requests: the first request that settles the promise gives the outcome; a
request arriving at or after the 2-minute mark finds the timer already fired,
and a stream that never settles the promise ends in the timer firing. -/
def runStateListener (expected : String) : List TimedEvent → ListenerOutcome
  | [] => .timedOut
  | e :: rest =>
      if CALLBACK_TIMEOUT_MS ≤ e.time then .timedOut
      else
        match handleState expected e.req with
        | some .denied => .denied
        | some .stateMismatch => .stateMismatch
        | some (.resolved c) => .succeeded c
        | none => runStateListener expected rest

/-- Whether the state-validating listener has closed its own server when the
run ends with the given outcome: it closes on denial, state mismatch and
timeout; on success it hands the still-open server to the caller. -/
def stateListenerClosed : ListenerOutcome → Bool
  | .succeeded _ => false
  | _ => true

/-- One run of the no-state listener over the same stream: the first request
that settles the promise gives the resolution; there is no timer, so a stream
that never settles the promise leaves the listener pending forever (`none`),
no matter how late its events arrive. -/
def runNoStateListener : List TimedEvent → Option NoStateResolution
  | [] => none
  | e :: rest =>
      match handleNoState e.req with
      | some r => some r
      | none => runNoStateListener rest

/-! ### OAuth protocol client (`oauth-client.ts`) -/

/-- Errors the credential core can surface. `listenerRejected` carries the
rejection of `waitForCallback` (consent denial or bind failure);
`exchangeFailed` / `refreshFailed` carry the token endpoint's non-success
status and body. -/
inductive AuthErr where
  | listenerRejected : String → AuthErr
  | exchangeFailed : Nat → String → AuthErr
  | refreshFailed : Nat → String → AuthErr
deriving DecidableEq

/-- What `OAuthClient.authorize` leaves behind when it returns: its result,
whether the callback server ever bound the port, and whether that server is
still open (port still bound) at the instant authorize returns or throws. -/
structure AuthorizeResult where
  result : Except AuthErr TokenData
  serverWasBound : Bool
  serverOpenAfter : Bool

/-- `OAuthClient.authorize`: binds the one-argument (no-state) listener, awaits
its resolution, and on success closes the server before exchanging the code.
A bind failure rejects before any waiting. A listener rejection (consent
denial) propagates with the server left open — authorize has no handler that
closes it on that path. When the listener never settles (`none`), authorize
never returns (`none`): it has no timeout of its own. -/
def OAuthClient.authorize (portBusy : Bool) (events : List TimedEvent)
    (exchange : String → Except AuthErr TokenData) : Option AuthorizeResult :=
  if portBusy then
    some ⟨.error (.listenerRejected "listen EADDRINUSE"), false, false⟩
  else
    match runNoStateListener events with
    | none => none
    | some (.rejected msg) => some ⟨.error (.listenerRejected msg), true, true⟩
    | some (.resolved code) => some ⟨exchange code, true, false⟩

/-! ### Credential manager (`auth-manager.ts`) -/

/-- The network operations `AuthManager` can trigger, in the order it
triggers them. `authorizeCall` stands for the whole interactive flow
(listener + code exchange). -/
inductive NetCall where
  | refreshCall : NetCall
  | authorizeCall : NetCall
deriving DecidableEq

/-- The environment one `getValidToken` / `getAuthStatus` call runs in: what
`tokenStore.load()` returns, the current instant, and how the protocol
client's `refreshToken` and `authorize` operations would settle if invoked. -/
structure ManagerEnv where
  stored : Option TokenData
  now : Int
  refreshResult : Except AuthErr TokenData
  authorizeResult : Except AuthErr TokenData

/-- What one manager operation did: its result, the sequence of
`tokenStore.save` calls it made, and the sequence of network operations it
triggered. -/
structure ManagerTrace where
  result : Except AuthErr TokenData
  saves : List TokenData
  calls : List NetCall

/-- `AuthManager.doInteractiveAuth`: run `oauthClient.authorize`; on success
save the obtained record and return it; a failure propagates with no save. -/
def AuthManager.doInteractiveAuth (env : ManagerEnv) : ManagerTrace :=
  match env.authorizeResult with
  | .ok t => ⟨.ok t, [t], [.authorizeCall]⟩
  | .error e => ⟨.error e, [], [.authorizeCall]⟩

/-- `AuthManager.getValidToken`: load; if absent run the interactive flow; if
present and not expired return as-is; if expired try a refresh, saving and
returning its result; if the refresh throws, catch it and fall back to the
interactive flow. -/
def AuthManager.getValidToken (env : ManagerEnv) : ManagerTrace :=
  match env.stored with
  | none => AuthManager.doInteractiveAuth env
  | some t =>
      if !TokenStore.isExpired env.now t then ⟨.ok t, [], []⟩
      else
        match env.refreshResult with
        | .ok r => ⟨.ok r, [r], [.refreshCall]⟩
        | .error _ =>
            let ia := AuthManager.doInteractiveAuth env
            ⟨ia.result, ia.saves, .refreshCall :: ia.calls⟩

/-- Store content after a trace: each save overwrites the file, so the last
save wins; with no saves the prior content is untouched. -/
def finalStore (env : ManagerEnv) (tr : ManagerTrace) : Option TokenData :=
  tr.saves.foldl (fun _ t => some t) env.stored

/-- The record `AuthManager.getAuthStatus` returns. -/
structure AuthStatus where
  authenticated : Bool
  expiresAt : Option Int
  scope : Option String
deriving DecidableEq

/-- `AuthManager.getAuthStatus`: load; absent gives the all-null
unauthenticated record; a present record reports freshness together with its
stored expiry and scope. -/
def AuthManager.getAuthStatus (stored : Option TokenData) (now : Int) : AuthStatus :=
  match stored with
  | none => ⟨false, none, none⟩
  | some t => ⟨!TokenStore.isExpired now t, some t.expires_at, some t.scope⟩

/-! ### Theorems -/

/-- Claim C7: `isExpired` is false for every record whose `expires_at` lies
strictly more than 60,000 ms after the current instant, true for every record
whose `expires_at` is at or before the current instant plus 60,000 ms, and
holds exactly when `expires_at - 60000 ≤ now`. -/
theorem isExpired_sixty_second_margin (now : Int) (t : TokenData) :
    (now + 60000 < t.expires_at → TokenStore.isExpired now t = false) ∧
    (t.expires_at ≤ now + 60000 → TokenStore.isExpired now t = true) ∧
    (TokenStore.isExpired now t = true ↔ t.expires_at - 60000 ≤ now) := by
  refine ⟨fun h => ?_, fun h => ?_, ?_⟩
  · simp only [TokenStore.isExpired, EXPIRY_BUFFER_MS, decide_eq_false_iff_not]
    omega
  · simp only [TokenStore.isExpired, EXPIRY_BUFFER_MS, decide_eq_true_eq]
    omega
  · simp only [TokenStore.isExpired, EXPIRY_BUFFER_MS, decide_eq_true_eq]

theorem isExpired_sixty_second_margin_witness :
    TokenStore.isExpired 0 ⟨"a", "r", 100000, "s"⟩ = false ∧
    TokenStore.isExpired 0 ⟨"a", "r", 60000, "s"⟩ = true :=
  ⟨(isExpired_sixty_second_margin 0 ⟨"a", "r", 100000, "s"⟩).1 (by decide),
   (isExpired_sixty_second_margin 0 ⟨"a", "r", 60000, "s"⟩).2.1 (by decide)⟩

/-- Claim C8: for every token record `t` and every prior filesystem state,
`save t` followed by `load` on the same path returns exactly `t`. -/
theorem save_load_roundtrip (t : TokenData) (fs : FsState) :
    TokenStore.load (TokenStore.save t fs).file = some t := by
  cases t
  rfl

/-- Claim C5 (amended): the validating `load` returns absent on a missing
file, an unreadable file, a file that is not valid JSON, and valid JSON that
fails the `TokenData` shape check; the non-validating `load` returns absent
on the first three of those cases (shape failures are covered by the C5
counterexample: it passes wrong-shape JSON through). -/
theorem load_degrades_to_absent (v : Json) (h : isValidTokenData v = false) :
    TokenStore.load .missing = none ∧
    TokenStore.load .unreadable = none ∧
    TokenStore.load .notJson = none ∧
    TokenStore.load (.json v) = none ∧
    TokenStore.loadNoValidate .missing = none ∧
    TokenStore.loadNoValidate .unreadable = none ∧
    TokenStore.loadNoValidate .notJson = none := by
  simp [TokenStore.load, TokenStore.loadNoValidate, h]

theorem load_degrades_to_absent_witness :
    isValidTokenData (Json.str "x") = false ∧
    TokenStore.load (.json (Json.str "x")) = none :=
  ⟨by decide, (load_degrades_to_absent (Json.str "x") (by decide)).2.2.2.1⟩

/-- Claim C5 counterexample: the non-validating `load` variant, on a file
holding valid JSON of the wrong shape (an empty array), returns the parsed
value rather than absent. -/
theorem loadNoValidate_passes_wrong_shape :
    isValidTokenData (Json.arr []) = false ∧
    TokenStore.loadNoValidate (.json (Json.arr [])) ≠ none := by
  refine ⟨by decide, ?_⟩
  simp [TokenStore.loadNoValidate]

/-- Claim C6 (amended): the chmod-enforcing `save` leaves the token file with
mode `0o600` after every save, whatever mode the file had before, and creates
the parent directory with mode `0o700` when it was missing; the creation-only
`save` variant guarantees mode `0o600` only when the file did not already
exist (a pre-existing looser mode survives it — see the C6 counterexample). -/
theorem save_enforces_permissions (t : TokenData) (fs : FsState) :
    (TokenStore.save t fs).fileMode = some 0o600 ∧
    (fs.dirExists = false →
      (TokenStore.save t fs).dirExists = true ∧
      (TokenStore.save t fs).dirMode = some 0o700) ∧
    (fs.file = FileContent.missing →
      (TokenStore.saveNoChmod t fs).fileMode = some 0o600) := by
  refine ⟨rfl, fun hd => ?_, fun hf => ?_⟩
  · constructor <;>
      simp [TokenStore.save, chmodFile, writeFileWithMode, mkdirRecursive, hd]
  · obtain ⟨de, dm, f, fm⟩ := fs
    cases de <;>
      simp [TokenStore.saveNoChmod, writeFileWithMode, mkdirRecursive, hf]

theorem save_enforces_permissions_witness :
    (TokenStore.save ⟨"a", "r", 0, "s"⟩ ⟨false, none, .missing, none⟩).fileMode =
      some 0o600 ∧
    (TokenStore.save ⟨"a", "r", 0, "s"⟩ ⟨false, none, .missing, none⟩).dirMode =
      some 0o700 :=
  ⟨(save_enforces_permissions ⟨"a", "r", 0, "s"⟩ ⟨false, none, .missing, none⟩).1,
   ((save_enforces_permissions ⟨"a", "r", 0, "s"⟩ ⟨false, none, .missing, none⟩).2.1
      rfl).2⟩

/-- A filesystem state whose token file already exists with loose (0o644)
permissions. -/
def looseFs : FsState :=
  ⟨true, some 0o700, .json (.str "old"), some 0o644⟩

/-- Claim C6 counterexample: the creation-only `save` variant, run against a
pre-existing token file with mode `0o644`, leaves the file at mode `0o644`
rather than `0o600` — permissions are not enforced on that save. -/
theorem saveNoChmod_keeps_loose_mode :
    (TokenStore.saveNoChmod ⟨"a", "r", 0, "s"⟩ looseFs).fileMode = some 0o644 ∧
    (TokenStore.saveNoChmod ⟨"a", "r", 0, "s"⟩ looseFs).fileMode ≠ some 0o600 := by
  refine ⟨rfl, ?_⟩
  intro h
  simp [TokenStore.saveNoChmod, writeFileWithMode, mkdirRecursive, looseFs] at h

/-- A callback request carrying a plausible authorization code together with
a `state` value that differs from the one the flow generated. -/
def csrfReq : CallbackRequest :=
  ⟨"/callback", some "attacker-code", none, some "other-state"⟩

/-- Claim C2: the state-validating listener does resolve a mismatched-state
callback as a state mismatch even when a code is present — but the listener
the interactive authorize flow actually invokes is the no-state variant,
which resolves the same request as a success and lets the flow exchange the
attacker-supplied code: authorize completes successfully despite the CSRF
state never matching. -/
theorem authorize_accepts_mismatched_state :
    handleState "expected-state" csrfReq = some .stateMismatch ∧
    handleNoState csrfReq = some (.resolved "attacker-code") ∧
    OAuthClient.authorize false [⟨5000, csrfReq⟩]
        (fun c => .ok ⟨c, "rt", 1000, "sc"⟩) =
      some ⟨.ok ⟨"attacker-code", "rt", 1000, "sc"⟩, true, false⟩ :=
  ⟨rfl, rfl, rfl⟩

/-- A callback request on which the provider reports that the user denied
consent. -/
def denialReq : CallbackRequest :=
  ⟨"/callback", none, some "access_denied", none⟩

/-- Claim C3 counterexample: on the denial path, the no-state listener that
authorize invokes rejects without closing its server, and authorize
propagates the error with the bound port still held (`serverWasBound` and
`serverOpenAfter` both true). -/
theorem authorize_denial_leaves_server_open :
    OAuthClient.authorize false [⟨1000, denialReq⟩]
        (fun c => .ok ⟨c, "rt", 1000, "sc"⟩) =
      some ⟨.error (.listenerRejected "OAuth error: access_denied"), true, true⟩ :=
  rfl

/-- Claim C3 (amended): authorize closes the listener before returning on the
success path — and therefore before any code-exchange failure surfaces — and
on a bind failure no port was ever bound; the state-validating listener
variant closes its own server on denial, state mismatch and timeout. But on
the denial path of the no-state listener that authorize actually invokes, the
server is left open when the error propagates (the C3 counterexample). -/
theorem authorize_closes_listener_on_success (events : List TimedEvent)
    (exchange : String → Except AuthErr TokenData) (c : String)
    (h : runNoStateListener events = some (.resolved c)) :
    OAuthClient.authorize false events exchange = some ⟨exchange c, true, false⟩ ∧
    OAuthClient.authorize true events exchange =
      some ⟨.error (.listenerRejected "listen EADDRINUSE"), false, false⟩ ∧
    stateListenerClosed .denied = true ∧
    stateListenerClosed .stateMismatch = true ∧
    stateListenerClosed .timedOut = true := by
  refine ⟨?_, rfl, rfl, rfl, rfl⟩
  simp [OAuthClient.authorize, h]

theorem authorize_closes_listener_on_success_witness :
    runNoStateListener [⟨1000, ⟨"/callback", some "good-code", none, none⟩⟩] =
      some (.resolved "good-code") ∧
    OAuthClient.authorize false [⟨1000, ⟨"/callback", some "good-code", none, none⟩⟩]
        (fun c => .ok ⟨c, "rt", 1000, "sc"⟩) =
      some ⟨.ok ⟨"good-code", "rt", 1000, "sc"⟩, true, false⟩ :=
  ⟨rfl,
   (authorize_closes_listener_on_success
      [⟨1000, ⟨"/callback", some "good-code", none, none⟩⟩]
      (fun c => .ok ⟨c, "rt", 1000, "sc"⟩) "good-code" rfl).1⟩

/-- Claim C4 (amended): when no request settles the state-validating listener
before the 2-minute mark, it resolves as timed out and has closed its own
server (so the port is released and a fresh bind, which fails only on a
still-bound port, succeeds). The no-state listener that the authorize flow
actually invokes has no timeout at all — the C4 counterexample shows it, and
authorize with it, pending forever. -/
theorem stateListener_times_out (expected : String) (events : List TimedEvent)
    (h : ∀ e ∈ events, handleState expected e.req = none ∨
          CALLBACK_TIMEOUT_MS ≤ e.time) :
    runStateListener expected events = .timedOut ∧
    stateListenerClosed (runStateListener expected events) = true := by
  have hrun : runStateListener expected events = .timedOut := by
    induction events with
    | nil => rfl
    | cons e rest ih =>
        rcases h e (by simp) with he | ht
        · rw [runStateListener]
          rcases Nat.lt_or_ge e.time CALLBACK_TIMEOUT_MS with hlt | hge
          · rw [if_neg (by omega), he]
            exact ih (fun x hx => h x (by simp [hx]))
          · rw [if_pos hge]
        · rw [runStateListener, if_pos ht]
  exact ⟨hrun, by rw [hrun]; rfl⟩

theorem stateListener_times_out_witness :
    runStateListener "s" [⟨130000, ⟨"/callback", some "late-code", none, some "s"⟩⟩] =
      .timedOut ∧
    stateListenerClosed
      (runStateListener "s"
        [⟨130000, ⟨"/callback", some "late-code", none, some "s"⟩⟩]) = true :=
  stateListener_times_out "s"
    [⟨130000, ⟨"/callback", some "late-code", none, some "s"⟩⟩]
    (by intro e he; simp at he; subst he; right; decide)

/-- Claim C4 counterexample: the no-state listener — the one the authorize
flow invokes — never resolves when no settling request arrives, no matter how
much time passes (a request arriving long after the 2-minute mark still finds
it pending), and authorize with it never returns: nothing bounds the wait at
2 minutes. -/
theorem noState_listener_never_times_out :
    runNoStateListener [] = none ∧
    runNoStateListener [⟨100000000, ⟨"/", none, none, none⟩⟩] = none ∧
    OAuthClient.authorize false []
        (fun c => .ok ⟨c, "rt", 1000, "sc"⟩) = none :=
  ⟨rfl, rfl, rfl⟩

/-- Claim C1: with an expired stored record and a failing refresh,
`getValidToken` catches the refresh error: its result, and its sequence of
saves, are exactly those of the interactive flow (so the failed refresh wrote
nothing — in particular if the interactive flow fails too, the store still
holds the pre-existing record); when the interactive flow succeeds its result
is persisted and returned. -/
theorem getValidToken_refresh_failure_falls_back (env : ManagerEnv)
    (t : TokenData) (e : AuthErr)
    (hs : env.stored = some t)
    (hx : TokenStore.isExpired env.now t = true)
    (hr : env.refreshResult = .error e) :
    (AuthManager.getValidToken env).result = (AuthManager.doInteractiveAuth env).result ∧
    (AuthManager.getValidToken env).saves = (AuthManager.doInteractiveAuth env).saves ∧
    (AuthManager.getValidToken env).calls =
      .refreshCall :: (AuthManager.doInteractiveAuth env).calls ∧
    (∀ t', env.authorizeResult = .ok t' →
      (AuthManager.getValidToken env).result = .ok t' ∧
      finalStore env (AuthManager.getValidToken env) = some t') ∧
    (∀ e', env.authorizeResult = .error e' →
      (AuthManager.getValidToken env).result = .error e' ∧
      (AuthManager.getValidToken env).saves = [] ∧
      finalStore env (AuthManager.getValidToken env) = some t) := by
  have hgvt : AuthManager.getValidToken env =
      ⟨(AuthManager.doInteractiveAuth env).result,
       (AuthManager.doInteractiveAuth env).saves,
       .refreshCall :: (AuthManager.doInteractiveAuth env).calls⟩ := by
    simp [AuthManager.getValidToken, hs, hx, hr]
  refine ⟨by rw [hgvt], by rw [hgvt], by rw [hgvt], ?_, ?_⟩
  · intro t' ha
    rw [hgvt]
    simp [AuthManager.doInteractiveAuth, ha, finalStore]
  · intro e' ha
    rw [hgvt]
    simp [AuthManager.doInteractiveAuth, ha, finalStore, hs]

theorem getValidToken_refresh_failure_falls_back_witness :
    (AuthManager.getValidToken
        ⟨some ⟨"old", "old-r", 0, "sc"⟩, 1000000,
         .error (.refreshFailed 500 "boom"), .ok ⟨"new", "new-r", 9000000, "sc"⟩⟩).result =
      .ok ⟨"new", "new-r", 9000000, "sc"⟩ ∧
    finalStore
        ⟨some ⟨"old", "old-r", 0, "sc"⟩, 1000000,
         .error (.refreshFailed 500 "boom"), .ok ⟨"new", "new-r", 9000000, "sc"⟩⟩
        (AuthManager.getValidToken
          ⟨some ⟨"old", "old-r", 0, "sc"⟩, 1000000,
           .error (.refreshFailed 500 "boom"), .ok ⟨"new", "new-r", 9000000, "sc"⟩⟩) =
      some ⟨"new", "new-r", 9000000, "sc"⟩ :=
  (getValidToken_refresh_failure_falls_back
      ⟨some ⟨"old", "old-r", 0, "sc"⟩, 1000000,
       .error (.refreshFailed 500 "boom"), .ok ⟨"new", "new-r", 9000000, "sc"⟩⟩
      ⟨"old", "old-r", 0, "sc"⟩ (.refreshFailed 500 "boom")
      rfl (by decide) rfl).2.2.2.1
    ⟨"new", "new-r", 9000000, "sc"⟩ rfl

/-- Claim C9: with a stored record that `isExpired` reports fresh,
`getValidToken` returns that record unchanged, triggers no network operation,
makes no save, and leaves the store content untouched. -/
theorem getValidToken_fresh_token_no_effects (env : ManagerEnv) (t : TokenData)
    (hs : env.stored = some t)
    (hx : TokenStore.isExpired env.now t = false) :
    (AuthManager.getValidToken env).result = .ok t ∧
    (AuthManager.getValidToken env).saves = [] ∧
    (AuthManager.getValidToken env).calls = [] ∧
    finalStore env (AuthManager.getValidToken env) = env.stored := by
  have hgvt : AuthManager.getValidToken env = ⟨.ok t, [], []⟩ := by
    simp [AuthManager.getValidToken, hs, hx]
  rw [hgvt]
  exact ⟨rfl, rfl, rfl, rfl⟩

theorem getValidToken_fresh_token_no_effects_witness :
    (AuthManager.getValidToken
        ⟨some ⟨"live", "live-r", 9000000, "sc"⟩, 0,
         .error (.refreshFailed 500 "boom"), .error (.listenerRejected "x")⟩).result =
      .ok ⟨"live", "live-r", 9000000, "sc"⟩ ∧
    (AuthManager.getValidToken
        ⟨some ⟨"live", "live-r", 9000000, "sc"⟩, 0,
         .error (.refreshFailed 500 "boom"), .error (.listenerRejected "x")⟩).calls = [] :=
  ⟨(getValidToken_fresh_token_no_effects
      ⟨some ⟨"live", "live-r", 9000000, "sc"⟩, 0,
       .error (.refreshFailed 500 "boom"), .error (.listenerRejected "x")⟩
      ⟨"live", "live-r", 9000000, "sc"⟩ rfl (by decide)).1,
   (getValidToken_fresh_token_no_effects
      ⟨some ⟨"live", "live-r", 9000000, "sc"⟩, 0,
       .error (.refreshFailed 500 "boom"), .error (.listenerRejected "x")⟩
      ⟨"live", "live-r", 9000000, "sc"⟩ rfl (by decide)).2.2.1⟩

/-- Claim C10: `getAuthStatus` on a present but expired record reports
`authenticated = false` while still exposing the stored `expires_at` and
`scope` as non-null; and across all store states, `expiresAt` and `scope` are
null exactly when no record loads at all. -/
theorem getAuthStatus_expired_token_projection (t : TokenData) (now : Int)
    (hx : TokenStore.isExpired now t = true) :
    (AuthManager.getAuthStatus (some t) now).authenticated = false ∧
    (AuthManager.getAuthStatus (some t) now).expiresAt = some t.expires_at ∧
    (AuthManager.getAuthStatus (some t) now).scope = some t.scope ∧
    (∀ s : Option TokenData, ∀ n : Int,
      ((AuthManager.getAuthStatus s n).expiresAt = none ↔ s = none) ∧
      ((AuthManager.getAuthStatus s n).scope = none ↔ s = none)) := by
  refine ⟨by simp [AuthManager.getAuthStatus, hx], rfl, rfl, ?_⟩
  intro s n
  cases s <;> simp [AuthManager.getAuthStatus]

theorem getAuthStatus_expired_token_projection_witness :
    (AuthManager.getAuthStatus (some ⟨"old", "old-r", 0, "sc"⟩) 1000000).authenticated =
      false ∧
    (AuthManager.getAuthStatus (some ⟨"old", "old-r", 0, "sc"⟩) 1000000).expiresAt =
      some 0 ∧
    (AuthManager.getAuthStatus (some ⟨"old", "old-r", 0, "sc"⟩) 1000000).scope =
      some "sc" :=
  ⟨(getAuthStatus_expired_token_projection ⟨"old", "old-r", 0, "sc"⟩ 1000000
      (by decide)).1,
   (getAuthStatus_expired_token_projection ⟨"old", "old-r", 0, "sc"⟩ 1000000
      (by decide)).2.1,
   (getAuthStatus_expired_token_projection ⟨"old", "old-r", 0, "sc"⟩ 1000000
      (by decide)).2.2.1⟩

end MfCloud
